import Mathlib

/-!
Shallow embedding of `src/decoder-opennmt/src/python/nmt_decoder.py`: the
message model and wire codec (`TranslationRequest`, `TranslationResponse`),
the queue element space with the `POISON_PILL` sentinel, the worker and
printer loop bodies, the `_close` shutdown sequence and the `serve_forever`
ingestion loop, together with theorems settling the specification claims.

Python values produced by `json.loads` / consumed by `json.dumps` are
modelled by the inductive `Json` (numbers as rationals, dicts as
insertion-ordered association lists).  Python exceptions are modelled by
`PyExc` (class name plus `str(e)` message); fallible code returns
`Except PyExc`.  Builtins (`int`, `float`, `str.split`, `str.join`) are
modelled by explicit executable functions marked as such.
-/

namespace NmtDecoder

/-- A JSON / Python value as produced by `json.loads`: numbers are rationals,
objects are association lists in insertion order. -/
inductive Json where
  | null : Json
  | bool (b : Bool) : Json
  | num (q : Rat) : Json
  | str (s : String) : Json
  | arr (elems : List Json) : Json
  | obj (fields : List (String × Json)) : Json

/-- A Python exception, reduced to what the program observes of it:
`type(e).__name__` and `str(e)`. -/
structure PyExc where
  type : String
  message : String
deriving DecidableEq

/-- Outcome of Python code that may raise. -/
abbrev Py (α : Type) := Except PyExc α

/-- Python `obj[k]` on a parsed JSON value: `KeyError` when the key is missing,
`TypeError` when the value is not a dict. -/
def Json.getItem : Json → String → Py Json
  | .obj fields, k =>
    match fields.lookup k with
    | some v => .ok v
    | none => .error ⟨"KeyError", k⟩
  | _, _ => .error ⟨"TypeError", "object is not subscriptable"⟩

/-- Python `k in obj` on a parsed JSON value (`False` on non-dicts). -/
def Json.hasKey : Json → String → Bool
  | .obj fields, k => (fields.lookup k).isSome
  | _, _ => false

/-- Python `obj.split(' ')` is only available on strings; anything else raises
`AttributeError`. -/
def Json.asStr : Json → Py String
  | .str s => .ok s
  | _ => .error ⟨"AttributeError", "object has no attribute split"⟩

/-- Iterating `for x in obj` over a parsed JSON value; modelled for lists,
anything else raises `TypeError`. -/
def Json.asArr : Json → Py (List Json)
  | .arr elems => .ok elems
  | _ => .error ⟨"TypeError", "object is not iterable"⟩

/-- Modelled builtin: truncation toward zero, as Python `int` applied to a
float. -/
def ratTrunc (q : Rat) : Int := if 0 ≤ q then ⌊q⌋ else ⌈q⌉

/-- Modelled builtin `int(x)` on a parsed JSON value: numbers truncate toward
zero, booleans coerce, integer-literal strings parse, everything else raises. -/
def pyInt : Json → Py Int
  | .num q => .ok (ratTrunc q)
  | .bool b => .ok (if b then 1 else 0)
  | .str s =>
    match s.toInt? with
    | some i => .ok i
    | none => .error ⟨"ValueError", "invalid literal for int()"⟩
  | _ => .error ⟨"TypeError", "int() argument must be a string or a number"⟩

/-- Digit-string value, `none` on any non-digit character. -/
def decDigits? (l : List Char) : Option Nat :=
  l.foldl
    (fun acc c =>
      match acc with
      | none => none
      | some n => if c.isDigit then some (n * 10 + (c.toNat - 48)) else none)
    (some 0)

/-- Modelled builtin `float(str)`: optional sign, decimal digits, optional
fractional part.  `none` when the literal is invalid. -/
def parseFloat? (s : String) : Option Rat :=
  let l := s.data
  let signed : Int × List Char :=
    match l with
    | '-' :: rest => (-1, rest)
    | '+' :: rest => (1, rest)
    | _ => (1, l)
  let intPart := signed.2.takeWhile (fun c => c ≠ '.')
  let rest := signed.2.dropWhile (fun c => c ≠ '.')
  match rest with
  | [] =>
    if intPart.isEmpty then none
    else (decDigits? intPart).map (fun n => signed.1 * (n : Rat))
  | _ :: frac =>
    if intPart.isEmpty ∧ frac.isEmpty then none
    else
      match decDigits? intPart, decDigits? frac with
      | some ip, some fp =>
        some (signed.1 * ((ip : Rat) + (fp : Rat) / (10 : Rat) ^ frac.length))
      | _, _ => none

/-- Modelled builtin `float(x)` on a parsed JSON value. -/
def pyFloat : Json → Py Rat
  | .num q => .ok q
  | .bool b => .ok (if b then 1 else 0)
  | .str s =>
    match parseFloat? s with
    | some q => .ok q
    | none => .error ⟨"ValueError", "could not convert string to float"⟩
  | _ => .error ⟨"TypeError", "float() argument must be a string or a number"⟩

/-- Modelled builtin: Python `str.split(' ')` on the character list — split at
every single space, keeping empty fields (no whitespace collapsing). -/
def splitChars : List Char → List (List Char)
  | [] => [[]]
  | c :: cs =>
    if c = ' ' then [] :: splitChars cs
    else
      match splitChars cs with
      | [] => [[c]]
      | t :: ts => (c :: t) :: ts

/-- Modelled builtin: Python `' '.join` on character lists. -/
def joinChars : List (List Char) → List Char
  | [] => []
  | [t] => t
  | t :: ts => t ++ ' ' :: joinChars ts

theorem splitChars_ne_nil (l : List Char) : splitChars l ≠ [] := by
  cases l with
  | nil => simp [splitChars]
  | cons c cs =>
    simp only [splitChars]
    by_cases h : c = ' '
    · simp [h]
    · simp only [h, if_false]
      cases splitChars cs <;> simp

theorem joinChars_splitChars (l : List Char) : joinChars (splitChars l) = l := by
  induction l with
  | nil => simp [splitChars, joinChars]
  | cons c cs ih =>
    simp only [splitChars]
    by_cases h : c = ' '
    · subst h
      rcases hs : splitChars cs with - | ⟨t, ts⟩
      · exact absurd hs (splitChars_ne_nil cs)
      · rw [hs] at ih
        simp [joinChars, ih]
    · simp only [h, if_false]
      rcases hs : splitChars cs with - | ⟨t, ts⟩
      · exact absurd hs (splitChars_ne_nil cs)
      · rw [hs] at ih
        cases ts with
        | nil => simpa [joinChars] using congrArg (c :: ·) ih
        | cons t2 ts2 => simpa [joinChars] using congrArg (c :: ·) ih

/-- Modelled builtin: Python `s.split(' ')`. -/
def pySplitSpace (s : String) : List String := (splitChars s.data).map String.mk

/-- Modelled builtin: Python `' '.join(tokens)`. -/
def pyJoinSpace (ts : List String) : String := String.mk (joinChars (ts.map String.data))

theorem pyJoinSpace_pySplitSpace (s : String) : pyJoinSpace (pySplitSpace s) = s := by
  cases s with
  | mk data =>
    show String.mk (joinChars (((splitChars data).map String.mk).map String.data)) = String.mk data
    rw [List.map_map]
    have h : (String.data ∘ String.mk) = fun l => l := rfl
    rw [h, List.map_id', joinChars_splitChars]

/-- Class `Suggestion` from the external `nmt` package, as the decoder constructs it:
positional `(source, target, score)`. -/
structure Suggestion where
  source : List String
  target : List String
  score : Rat
deriving DecidableEq

/-- Class `TranslationRequest` after `__init__`: `id`, tokenized `source`, `suggestions`
(defaulting to the empty list when the constructor receives `None`). -/
structure TranslationRequest where
  id : Int
  source : List String
  suggestions : List Suggestion
deriving DecidableEq

/-- Body of the `for sobj in obj['suggestions']` loop inside
`TranslationRequest.from_json_string`: `sobj['source'].split(' ')`,
`sobj['target'].split(' ')`, and `float(sobj['score']) if 'score' in sobj
else 0`. -/
def parseSuggestion (sobj : Json) : Py Suggestion := do
  let suggestion_source := pySplitSpace (← (← sobj.getItem "source").asStr)
  let suggestion_target := pySplitSpace (← (← sobj.getItem "target").asStr)
  let suggestion_score ←
    if sobj.hasKey "score" then pyFloat (← sobj.getItem "score") else pure (0 : Rat)
  pure ⟨suggestion_source, suggestion_target, suggestion_score⟩

/-- Static method `TranslationRequest.from_json_string`.  `json.loads` belongs to the
external `json` library, so the argument is its outcome on the input line:
the parsed value, or the exception it raised. -/
def TranslationRequest.from_json_string (loads : Py Json) : Py TranslationRequest := do
  let obj ← loads
  let _id ← pyInt (← obj.getItem "id")
  let source := pySplitSpace (← (← obj.getItem "source").asStr)
  let suggestions ←
    if obj.hasKey "suggestions" then do
      (← (← obj.getItem "suggestions").asArr).mapM parseSuggestion
    else pure []
  pure ⟨_id, source, suggestions⟩

/-- Class `TranslationResponse` after `__init__` ran: `translation` as given,
`error_type = type(exception).__name__ if exception is not None else None`,
`error_message = str(exception) if exception is not None and str(exception)
else None`. -/
structure TranslationResponse where
  id : Int
  translation : Option (List String)
  error_type : Option String
  error_message : Option String
deriving DecidableEq

/-- Constructor `TranslationResponse.__init__(_id, translation, exception)`. -/
def TranslationResponse.make (_id : Int) (translation : Option (List String))
    (exception : Option PyExc) : TranslationResponse :=
  { id := _id
    translation := translation
    error_type := exception.map PyExc.type
    error_message :=
      match exception with
      | some e => if e.message = "" then none else some e.message
      | none => none }

/-- Method `TranslationResponse.to_json_string`, modelled up to `json.dumps`: the
dict the method builds and passes to `dumps`, keys in insertion order. -/
def TranslationResponse.to_json (r : TranslationResponse) : Json :=
  match r.translation with
  | some t => .obj [("id", .num (r.id : Rat)), ("translation", .str (pyJoinSpace t))]
  | none =>
    let error : List (String × Json) :=
      ("type", match r.error_type with | some ty => Json.str ty | none => Json.null) ::
        (match r.error_message with | some m => [("message", Json.str m)] | none => [])
    .obj [("id", .num (r.id : Rat)), ("error", .obj error)]

namespace MainController

def POISON_PILL : String := "__POISON_PILL__"

/-- A value sitting on one of the two `Queue.Queue`s: either a payload object
of the given class, or a Python string — the space the `POISON_PILL` sentinel
lives in. -/
inductive QElem (α : Type) where
  | payload (p : α)
  | pyStr (s : String)
deriving DecidableEq

/-- The consumers' sentinel test:
`isinstance(x, basestring) and x == MainController.POISON_PILL`. -/
def isPoisonPill {α : Type} : QElem α → Bool
  | .payload _ => false
  | .pyStr s => s == POISON_PILL

/-- The engine contract (`decoder.translate(source, suggestions)`): target
tokens, or any raised exception. -/
abbrev Translate := List String → List Suggestion → Py (List String)

/-- What one iteration of a consumer loop does with the element its blocking
`get` returned. -/
inductive StepResult (β : Type) where
  | stop : StepResult β
  | emit (out : β) : StepResult β
  | crash (e : PyExc) : StepResult β
deriving DecidableEq

/-- One iteration of `ExecutorThread.run` on a dequeued element.  A `Payload`
produces exactly one response: the engine call and the success path run in a
`try` whose `except BaseException` handler builds the error response instead.
A non-pill string would raise `AttributeError` at `request.source`, and again
at `request.id` inside the handler, escaping `run` — the crash case (never
exercised: the program only enqueues requests and the pill). -/
def ExecutorThread.step (translate : Translate) :
    QElem TranslationRequest → StepResult TranslationResponse
  | .pyStr s =>
    if s == POISON_PILL then .stop
    else .crash ⟨"AttributeError", "object has no attribute id"⟩
  | .payload request =>
    match translate request.source request.suggestions with
    | .ok translation => .emit (TranslationResponse.make request.id (some translation) none)
    | .error e => .emit (TranslationResponse.make request.id none (some e))

/-- One iteration of `PrinterThread.run` on a dequeued element: serialize and
write one line (the emitted value models `response.to_json_string()` followed
by the newline write and flush). -/
def PrinterThread.step : QElem TranslationResponse → StepResult Json
  | .pyStr s =>
    if s == POISON_PILL then .stop
    else .crash ⟨"AttributeError", "object has no attribute to_json_string"⟩
  | .payload response => .emit response.to_json

/-- How a consumer loop ended after its queue fed it a given element
sequence. -/
inductive LoopExit where
  | finished : LoopExit
  | pending : LoopExit
  | crashed (e : PyExc) : LoopExit
deriving DecidableEq

/-- A `while True` consumer loop (`ExecutorThread.run` / `PrinterThread.run`)
over the sequence of elements its blocking `get`s return: the outputs it
emits, and how it ended (`pending` = the sequence ran out with the thread
still blocked on `get`). -/
def runLoop {α β : Type} (step : QElem α → StepResult β) :
    List (QElem α) → List β × LoopExit
  | [] => ([], .pending)
  | e :: rest =>
    match step e with
    | .stop => ([], .finished)
    | .crash exc => ([], .crashed exc)
    | .emit out =>
      let (outs, x) := runLoop step rest
      (out :: outs, x)

/-- The primitive operations `MainController._close` performs, in source
order. -/
inductive CloseAction where
  | clearInQueue : CloseAction
  | clearOutQueue : CloseAction
  | putInPill : CloseAction
  | putOutPill : CloseAction
  | joinWorker (i : Nat) : CloseAction
  | joinPrinter : CloseAction
deriving DecidableEq

/-- The sequence of operations `_close` performs with `n` workers: clear both
queues (under their mutexes), put one pill per worker on the request queue,
put one pill on the response queue, join every worker, join the printer. -/
def closeTrace (n : Nat) : List CloseAction :=
  [.clearInQueue, .clearOutQueue]
    ++ (List.range n).map (fun _ => .putInPill)
    ++ [.putOutPill]
    ++ (List.range n).map (fun i => .joinWorker i)
    ++ [.joinPrinter]

/-- Effect of `_close`'s queue operations on the two queues: whatever `_inQ`
and `_outQ` held is dropped by `queue.clear()`, then the pills are put. -/
def closeQueues (n : Nat) (_inQ : List (QElem TranslationRequest))
    (_outQ : List (QElem TranslationResponse)) :
    List (QElem TranslationRequest) × List (QElem TranslationResponse) :=
  let inCleared : List (QElem TranslationRequest) := []
  let outCleared : List (QElem TranslationResponse) := []
  (inCleared ++ List.replicate n (.pyStr POISON_PILL),
   outCleared ++ [.pyStr POISON_PILL])

/-- One event observed by the ingestion loop at `sys.stdin.readline()`: a
line was read (with the outcome of `json.loads` on it), or a
`KeyboardInterrupt` was delivered.  End of the list models end-of-stream
(`readline` returning the empty string). -/
inductive ReadEvent where
  | line (loads : Py Json) : ReadEvent
  | interrupt : ReadEvent

/-- An action of the main thread in `serve_forever`. -/
inductive MainAction where
  | startPrinter : MainAction
  | startWorker (i : Nat) : MainAction
  | putRequest (r : TranslationRequest) : MainAction
  | closeAct (a : CloseAction) : MainAction

/-- How `serve_forever` returns control: normally (end-of-stream, or a
`KeyboardInterrupt` caught by the `except` clause), or re-raising an
exception the loop did not handle. -/
inductive Outcome where
  | normal : Outcome
  | raised (e : PyExc) : Outcome

/-- The `while True` ingestion loop of `serve_forever`: requests enqueued in
order, and how the loop ended.  A line that fails to parse aborts the loop
with the exception, which nothing inside the `try` catches. -/
def serveLoop : List ReadEvent → List TranslationRequest × Outcome
  | [] => ([], .normal)
  | .interrupt :: _ => ([], .normal)
  | .line loads :: rest =>
    match TranslationRequest.from_json_string loads with
    | .error e => ([], .raised e)
    | .ok request =>
      let (requests, outcome) := serveLoop rest
      (request :: requests, outcome)

/-- Method `serve_forever` with `n` workers: start the printer, start the workers,
run the ingestion loop, and — via `finally` — always perform the `_close`
sequence before returning or re-raising. -/
def serve_forever (n : Nat) (events : List ReadEvent) : List MainAction × Outcome :=
  (MainAction.startPrinter :: (List.range n).map MainAction.startWorker
      ++ (serveLoop events).1.map MainAction.putRequest
      ++ (closeTrace n).map MainAction.closeAct,
   (serveLoop events).2)

/-- The spec's shutdown-drain scenario: a pool of one worker, whose (slow)
engine call on an already-dequeued request is still running when end of
input triggers `_close`; both queues are empty.  The schedule — each step a
legal interleaving of the source's threads:
1. main runs `_close`: clears both queues, puts the worker's pill on the
   request queue and the printer's pill on the response queue;
2. the printer, blocked on `get`, receives the pill (FIFO: it was enqueued
   first) and exits;
3. the worker finishes the engine call, puts its one response on the
   response queue, then gets its pill from the request queue and exits;
4. main's joins return.
Result: (lines the printer wrote, final response-queue contents, worker
exit, printer exit). -/
def drainScenario (translate : Translate) (request : TranslationRequest) :
    List Json × List (QElem TranslationResponse) × LoopExit × LoopExit :=
  let (inQ, outQ) := closeQueues 1 [] []
  let (written, printerExit) := runLoop PrinterThread.step outQ
  let enqueuedLate : List (QElem TranslationResponse) :=
    match ExecutorThread.step translate (.payload request) with
    | .emit r => [.payload r]
    | _ => []
  let (_, workerExit) := runLoop (ExecutorThread.step translate) inQ
  (written, enqueuedLate, workerExit, printerExit)

/-- The identity engine of the spec's round-trip test: `translate` returns
its source tokens unchanged. -/
def identityTranslate : Translate := fun source _suggestions => .ok source

end MainController

open MainController

theorem pyInt_intCast (i : Int) : pyInt (.num (i : Rat)) = .ok i := by
  simp only [pyInt, ratTrunc]
  split <;> simp

/-- C10: the success/failure branch of response serialization is decided by
whether `translation` is `None`, not by emptiness: a response built from an
empty token sequence serializes as `{"id": ..., "translation": ""}`, and in
general any non-`None` translation serializes as a success object, never an
error object. -/
theorem C10_empty_translation_is_success (i : Int) :
    (TranslationResponse.make i (some []) none).to_json
        = Json.obj [("id", .num (i : Rat)), ("translation", .str "")]
    ∧ ∀ t : List String,
        (TranslationResponse.make i (some t) none).to_json
          = Json.obj [("id", .num (i : Rat)), ("translation", .str (pyJoinSpace t))] :=
  ⟨rfl, fun _ => rfl⟩

/-- C6: serializing a failed response yields
`{"id": ..., "error": {"type": ..., "message"?: ...}}` with the `"message"`
field present exactly when `str(exception)` is nonempty. -/
theorem C6_error_serialization (i : Int) (e : PyExc) :
    (TranslationResponse.make i none (some e)).to_json
      = Json.obj [("id", .num (i : Rat)),
          ("error", .obj (("type", Json.str e.type) ::
            (if e.message = "" then [] else [("message", Json.str e.message)])))] := by
  by_cases h : e.message = "" <;>
    simp [TranslationResponse.make, TranslationResponse.to_json, h]

/-- Claim C2 as stated: queue elements form a tagged variant whose Shutdown
marker lies outside the payloads' (string-containing) value space, i.e. no
raw string element is interpreted as the shutdown marker. -/
def shutdownMarkerOutsideStringSpace : Prop :=
  ∀ s : String, isPoisonPill (QElem.pyStr s : QElem TranslationRequest) = false

/-- C2 counterexample: the raw string `"__POISON_PILL__"`, an element of the
string value space, is interpreted as the shutdown marker — the sentinel is a
magic string value, not a separate tag. -/
theorem C2_counterexample : ¬ shutdownMarkerOutsideStringSpace := by
  intro h
  have hc := h "__POISON_PILL__"
  simp [isPoisonPill, POISON_PILL] at hc

/-- C2 amended: the shutdown marker is the raw string `'__POISON_PILL__'`
(a magic value in the string space, accepted by the consumers' sentinel
test), but the payloads the program enqueues are Request/Response objects,
never strings, so no legitimate payload is ever mistaken for the marker. -/
theorem C2_marker_raw_string_no_payload_collision :
    POISON_PILL = "__POISON_PILL__"
    ∧ isPoisonPill (QElem.pyStr POISON_PILL : QElem TranslationRequest) = true
    ∧ (∀ r : TranslationRequest, isPoisonPill (QElem.payload r) = false)
    ∧ (∀ r : TranslationResponse, isPoisonPill (QElem.payload r) = false) :=
  ⟨rfl, by simp [isPoisonPill], fun _ => rfl, fun _ => rfl⟩

/-- C5: `_close` first clears both queues (dropping whatever they held),
then puts exactly one pill per worker on the request queue and exactly one
pill on the response queue; its operation sequence is: the two clears, then
the pill puts, then the worker joins, then — last — the printer join. -/
theorem C5_close_order_and_effect (n : Nat) (inQ : List (QElem TranslationRequest))
    (outQ : List (QElem TranslationResponse)) :
    closeQueues n inQ outQ
        = (List.replicate n (.pyStr POISON_PILL), [.pyStr POISON_PILL])
    ∧ closeTrace n
        = [.clearInQueue, .clearOutQueue]
            ++ List.replicate n .putInPill
            ++ [.putOutPill]
            ++ (List.range n).map CloseAction.joinWorker
            ++ [.joinPrinter] := by
  refine ⟨rfl, ?_⟩
  simp [closeTrace, List.map_const']

/-- C9: whatever the ingestion loop does — end-of-stream, interrupt, or a
line whose parse failure aborts it with an exception — `serve_forever`
performs the complete `_close` sequence (clears, pill puts, all joins) as
the final actions of its trace, before returning or re-raising. -/
theorem C9_close_always_runs (n : Nat) (events : List ReadEvent) :
    List.IsSuffix ((closeTrace n).map MainAction.closeAct) (serve_forever n events).1
    ∧ MainAction.closeAct .joinPrinter ∈ (serve_forever n events).1 := by
  constructor
  · exact ⟨MainAction.startPrinter :: (List.range n).map MainAction.startWorker
        ++ (serveLoop events).1.map MainAction.putRequest, by simp [serve_forever]⟩
  · simp [serve_forever, closeTrace]

/-- C3: for every dequeued `Payload`, the worker loop emits exactly one
response — carrying the translation when the engine call succeeds, or the
structured error when it raises anything — and then continues with the rest
of its queue exactly as before: a failing request never terminates or
corrupts the worker. -/
theorem C3_one_response_per_payload (translate : Translate)
    (request : TranslationRequest) (rest : List (QElem TranslationRequest)) :
    runLoop (ExecutorThread.step translate) (.payload request :: rest)
      = ((match translate request.source request.suggestions with
          | .ok t => TranslationResponse.make request.id (some t) none
          | .error e => TranslationResponse.make request.id none (some e))
            :: (runLoop (ExecutorThread.step translate) rest).1,
         (runLoop (ExecutorThread.step translate) rest).2) := by
  cases h : translate request.source request.suggestions <;>
    simp [runLoop, ExecutorThread.step, h]

/-- C7: a parsed suggestion's score is `float(sobj['score'])` when the
`"score"` key is present and `0` when it is absent; in particular a
suggestion carrying only `"source"` and `"target"` parses successfully. -/
theorem C7_suggestion_score_default (a b : String) (v : Json) :
    parseSuggestion (.obj [("source", .str a), ("target", .str b)])
        = .ok ⟨pySplitSpace a, pySplitSpace b, 0⟩
    ∧ parseSuggestion (.obj [("source", .str a), ("target", .str b), ("score", v)])
        = (pyFloat v).map (fun q => ⟨pySplitSpace a, pySplitSpace b, q⟩) := by
  constructor
  · rfl
  · have h1 : parseSuggestion (.obj [("source", .str a), ("target", .str b), ("score", v)])
        = Suggestion.mk (pySplitSpace a) (pySplitSpace b) <$> pyFloat v := rfl
    rw [h1]
    cases pyFloat v <;> rfl

/-- C4: parsing `{"id": i, "source": s}` yields the request with `id = i`
and the space-split tokens of `s`; with the identity engine the worker emits
the response carrying those tokens, which serializes back to
`{"id": i, "translation": s}` — the split/join codec round-trips every
string. -/
theorem C4_identity_engine_roundtrip (i : Int) (s : String) :
    TranslationRequest.from_json_string
        (.ok (.obj [("id", .num (i : Rat)), ("source", .str s)]))
      = .ok ⟨i, pySplitSpace s, []⟩
    ∧ ExecutorThread.step identityTranslate (.payload ⟨i, pySplitSpace s, []⟩)
      = .emit (TranslationResponse.make i (some (pySplitSpace s)) none)
    ∧ (TranslationResponse.make i (some (pySplitSpace s)) none).to_json
      = Json.obj [("id", .num (i : Rat)), ("translation", .str s)] := by
  refine ⟨?_, rfl, ?_⟩
  · have h1 : TranslationRequest.from_json_string
          (.ok (.obj [("id", .num (i : Rat)), ("source", .str s)]))
        = (pyInt (.num (i : Rat))).bind
            (fun _id => .ok ⟨_id, pySplitSpace s, []⟩) := rfl
    rw [h1, pyInt_intCast]
    rfl
  · simp [TranslationResponse.make, TranslationResponse.to_json, pyJoinSpace_pySplitSpace]

/-- C8: a line that fails to parse (malformed JSON, or a JSON value without
an integer-coercible `"id"` and string `"source"`) aborts the ingestion
loop: the requests enqueued are exactly those of the well-formed prefix,
lines after the bad one are never read, no error response is produced, and
the exception propagates as the loop's outcome. -/
theorem C8_malformed_line_kills_ingestion (pre : List (Py Json))
    (reqs : List TranslationRequest)
    (hpre : pre.mapM TranslationRequest.from_json_string = .ok reqs)
    (bad : Py Json) (e : PyExc)
    (hbad : TranslationRequest.from_json_string bad = .error e)
    (rest : List ReadEvent) :
    serveLoop (pre.map ReadEvent.line ++ ReadEvent.line bad :: rest)
      = (reqs, .raised e) := by
  induction pre generalizing reqs with
  | nil =>
    simp only [List.mapM_nil, pure, Except.pure, Except.ok.injEq] at hpre
    subst hpre
    simp [serveLoop, hbad]
  | cons l ls ih =>
    rw [List.mapM_cons] at hpre
    cases hl : TranslationRequest.from_json_string l with
    | error e2 => rw [hl] at hpre; simp [Bind.bind, Except.bind] at hpre
    | ok r =>
      rw [hl] at hpre
      cases hls : ls.mapM TranslationRequest.from_json_string with
      | error e2 =>
        rw [hls] at hpre; simp [Bind.bind, Except.bind] at hpre
      | ok rs =>
        rw [hls] at hpre
        simp only [Bind.bind, Except.bind, pure, Except.pure, Except.ok.injEq] at hpre
        subst hpre
        simp [serveLoop, hl, ih rs hls]

/-- C8 witness: one good line, then a malformed line, then another good
line; ingestion enqueues only the first request and raises the parse
error. -/
theorem C8_witness :
    serveLoop
        ([Except.ok (Json.obj [("id", .num 1), ("source", .str "a b")])].map ReadEvent.line
          ++ ReadEvent.line (.error ⟨"ValueError", "No JSON object could be decoded"⟩)
            :: [ReadEvent.line (.ok (.obj [("id", .num 2), ("source", .str "c")]))])
      = ([⟨1, ["a", "b"], []⟩], .raised ⟨"ValueError", "No JSON object could be decoded"⟩) :=
  C8_malformed_line_kills_ingestion
    [Except.ok (Json.obj [("id", .num 1), ("source", .str "a b")])]
    [⟨1, ["a", "b"], []⟩] (by rfl)
    (.error ⟨"ValueError", "No JSON object could be decoded"⟩)
    ⟨"ValueError", "No JSON object could be decoded"⟩ (by rfl)
    [ReadEvent.line (.ok (.obj [("id", .num 2), ("source", .str "c")]))]

/-- C1, evaluated at the spec's own drain scenario (pool of one, slow
engine, one in-flight request, input closed): `_close` puts the printer's
pill on the response queue before joining the workers, so the printer —
whose queue is FIFO — observes Shutdown before the in-flight response is
enqueued and exits without writing it.  The response is enqueued (and both
threads exit, so the joins return), but the written output is empty: the
in-flight request's response is NOT delivered, contradicting the claim. -/
theorem C1_inflight_response_dropped :
    drainScenario identityTranslate ⟨1, ["a", "b", "c"], []⟩
      = ([], [.payload (TranslationResponse.make 1 (some ["a", "b", "c"]) none)],
         .finished, .finished) := rfl

end NmtDecoder
